import Mathlib

/-!
# Verification of the Aerodrome sell-tax-aware quote service

Shallow embedding of `src/aerodrome.py` (`get_aerodrome_quote`),
`src/models.py` (`SwapAerodromeBody` validation) and the cache-key logic of
`src/app.py` / `src/redis_utils.py`.

Modelling conventions:
* Python `str.lower()` is `lower` below (character-wise lowercase).
* `eth_utils.to_checksum_address` / `Web3.to_checksum_address` only change the
  letter case of an address string; every comparison the program performs on
  such values is case-insensitive, so the model keeps the string unchanged
  where the source checksums it.
* Python ints are `Int`/`Nat`.  `int(x / y)` (true division then `int`
  truncation) is `Int.tdiv` (truncation toward zero); `x // y` is `Int.fdiv`
  (floor).  The float rounding noise of the source for magnitudes beyond 2^53
  is outside the embedding (the spec's §9 design note already flags it); on
  every concrete value appearing below the two agree exactly.
* On-chain reads (route finder result, factory fee, pair reserves, pair
  token0, router batch amounts) are oracle data supplied in a `ChainEnv`.
* A Python exception escaping the function (ValueError from a path mismatch
  or a tuple unpacking, ZeroDivisionError) and the `(None, message)` failure
  return are both `Except.error`.
-/

/-- Python `str.lower()` (character-wise). -/
def lower (s : String) : String := String.mk (s.data.map Char.toLower)

/-- `src/aerodrome.py` line 65. -/
def ZERO_ADDR : String := "0x0000000000000000000000000000000000000000"

/-- The fields of `sugar.token.Token` the quote function reads. -/
structure Token where
  token_address : String
  wrapped_token_address : Option String
deriving Repr, DecidableEq

/-- The fields of a route pool the quote function reads
(`pool.lp`, `pool.token0_address`, `pool.token1_address`). -/
structure Pool where
  lp : String
  token0_address : String
  token1_address : String
deriving Repr, DecidableEq

/-- One entry of the hop list built at lines 108-115 of `src/aerodrome.py`
(dict keys `from`, `to`, `stable`, `factory`). -/
structure RouteHop where
  from_token : String
  to_token : String
  stable : Bool
  factory : String
deriving Repr, DecidableEq

/-- The fields of the route-finder result (`chain.get_quote`) the function
reads: the pool sequence `quote.path` (the second tuple component of each
entry is never used), `quote.amount_in` and `quote.amount_out`. -/
structure Quote where
  path : List Pool
  amount_in : Nat
  amount_out : Nat
deriving Repr, DecidableEq

/-- `src/models.py`: `SwapAerodromeBody`. -/
structure SwapAerodromeBody where
  use_cache : Bool
  chain_id : String
  token_in : String
  token_out : String
  token_in_amount : Int
  pair_address : String
  agent_key_address : String
  total_fee_percent : Int
deriving Repr, DecidableEq

/-- `src/models.py` lines 12-13: the only value constraint pydantic enforces
is `total_fee_percent >= 0` (`ge=0`); every other field is merely typed. -/
def validateBody (b : SwapAerodromeBody) : Bool := 0 ≤ b.total_fee_percent

/-- Failure modes of the embedded quote computation.  `noQuote` is the
`(None, "No quote found")` return; the others are Python exceptions escaping
`get_aerodrome_quote` (none of them produces a result). -/
inductive QuoteError where
  | noQuote
  | emptyRoute
  | pathInconsistent (tail lp : String)
  | feeUnpack
  | divByZero
  | forwardUnpack
deriving Repr, DecidableEq

/-- The success payload: `{"quote": str(...), "path": swap_path}`. -/
structure QuoteResult where
  quote : String
  path : List RouteHop
deriving Repr, DecidableEq

/-- Oracle data: everything `get_aerodrome_quote` reads from the chain.
`fee_amounts` is the list returned by the router `getAmountsOut` call on the
withheld fee (lines 136-143); `forward_amounts` is the router `getAmountsOut`
call used to forward a corrected amount through the remaining hops
(line 161), as a function of its two arguments. -/
structure ChainEnv where
  eth_token : Token
  factory_address : String
  quote : Option Quote
  fee_bps : Nat
  reserve0 : Nat
  reserve1 : Nat
  token0 : String
  fee_amounts : List Int
  forward_amounts : Int → List RouteHop → List Int

/-- Lines 64-82: the input token is the native sentinel (`chain.eth`) when
`token_in` is the zero address, otherwise the ERC-20 token at that address
(whose `wrapped_token_address` is unset). -/
def resolveTokenIn (body : SwapAerodromeBody) (env : ChainEnv) : Token :=
  if lower body.token_in == ZERO_ADDR then env.eth_token
  else { token_address := body.token_in, wrapped_token_address := none }

/-- Line 94: the starting entry of the token path — the wrapped form of the
input token when one exists, lower-cased. -/
def startOf (body : SwapAerodromeBody) (env : ChainEnv) : String :=
  lower ((resolveTokenIn body env).wrapped_token_address.getD
    (resolveTokenIn body env).token_address)

/-- Lines 95-104: extend the running token path through each pool of the
route, matching the current tail against the pool's token0/token1 and
raising `ValueError` (here `pathInconsistent`) when neither matches.
Returns the full token path including the starting token. -/
def buildTokenPath (tail : String) : List Pool → Except QuoteError (List String)
  | [] => .ok [tail]
  | pool :: rest =>
    if tail == lower pool.token0_address then
      Except.map (fun p => tail :: p) (buildTokenPath (lower pool.token1_address) rest)
    else if tail == lower pool.token1_address then
      Except.map (fun p => tail :: p) (buildTokenPath (lower pool.token0_address) rest)
    else .error (.pathInconsistent tail pool.lp)

/-- Lines 108-115: one hop per consecutive pair of token-path entries, always
volatile (`stable = False`) and carrying the configured factory address. -/
def buildSwapPath (factory : String) : List String → List RouteHop
  | a :: b :: rest =>
    { from_token := a, to_token := b, stable := false, factory := factory }
      :: buildSwapPath factory (b :: rest)
  | _ => []

/-- The intermediate values of the sell correction (lines 132, 149-157). -/
structure CorrectionOut where
  fee : Int
  base_reserve : Int
  token_reserve : Int
  remaining : Int
  real_base_amount : Int
deriving Repr, DecidableEq

/-- Lines 132 and 149-157: the correction arithmetic.
`fee = int(amount_in * total_fee_percent / 1000)`;
reserve selection by comparing the pair's `token0` to the agent-key address;
`remaining = amount_in - fee` then `remaining -= remaining * fee_bps // 10000`;
`real_base_amount = int((remaining * base_reserve) / (token_reserve + remaining))`
(the source keeps the float; its only consumer, line 161, truncates it with
`int`, which is what `real_base_amount` holds here). -/
def correction (amount_in : Nat) (total_fee_percent : Int) (fee_bps : Nat)
    (reserve0 reserve1 : Nat) (token0 agent_key_address : String) : CorrectionOut :=
  let fee : Int := Int.tdiv ((amount_in : Int) * total_fee_percent) 1000
  let is_ak_token0 : Bool := lower token0 == lower agent_key_address
  let base_reserve : Int := if is_ak_token0 then reserve1 else reserve0
  let token_reserve : Int := if is_ak_token0 then reserve0 else reserve1
  let remaining0 : Int := (amount_in : Int) - fee
  let remaining : Int := remaining0 - Int.fdiv (remaining0 * (fee_bps : Int)) 10000
  { fee := fee, base_reserve := base_reserve, token_reserve := token_reserve,
    remaining := remaining,
    real_base_amount := Int.tdiv (remaining * base_reserve) (token_reserve + remaining) }

/-- The correction values computed inside a run of the quote function: the
pair state comes from the environment and `amount_in` from the route-finder
quote (line 131 uses `quote.amount_in`). -/
def sellCorrectionOf (body : SwapAerodromeBody) (env : ChainEnv) (q : Quote) : CorrectionOut :=
  correction q.amount_in body.total_fee_percent env.fee_bps
    env.reserve0 env.reserve1 env.token0 body.agent_key_address

/-- Lines 130-167: the sell-through-the-taxed-pool branch.  The router call
on the withheld fee is unpacked into two values (line 136); `fee_input` is
then reduced by the pool fee (line 155) but never read afterwards.  The
constant-product division of line 157 happens before the hop-count test, so
a zero denominator fails the whole call.  For a path of more than two tokens
the corrected amount is forwarded through the remaining hops and the call's
result is unpacked into exactly two values (line 161); otherwise the naive
`quote.amount_out` is returned. -/
def sellBranch (body : SwapAerodromeBody) (env : ChainEnv) (q : Quote)
    (token_path : List String) (swap_path : List RouteHop) : Except QuoteError QuoteResult :=
  match env.fee_amounts with
  | [fee_input, _fee_output] =>
    let _fee_input2 : Int := fee_input - Int.fdiv (fee_input * (env.fee_bps : Int)) 10000
    if (sellCorrectionOf body env q).token_reserve
        + (sellCorrectionOf body env q).remaining == 0 then .error .divByZero
    else if token_path.length > 2 then
      match env.forward_amounts (sellCorrectionOf body env q).real_base_amount
          (swap_path.drop 1) with
      | [_, final_quote] => .ok { quote := toString final_quote, path := swap_path }
      | _ => .error .forwardUnpack
    else .ok { quote := toString q.amount_out, path := swap_path }
  | _ => .error .feeUnpack

/-- `get_aerodrome_quote` (`src/aerodrome.py` lines 52-167) as a function of
the request body and the oracle data. -/
def get_aerodrome_quote (body : SwapAerodromeBody) (env : ChainEnv) :
    Except QuoteError QuoteResult :=
  match env.quote with
  | none => .error .noQuote
  | some q =>
    match q.path with
    | [] => .error .emptyRoute
    | firstPool :: rest =>
      match buildTokenPath (startOf body env) (firstPool :: rest) with
      | .error e => .error e
      | .ok token_path =>
        if !(lower (resolveTokenIn body env).token_address
            == lower body.agent_key_address) then
          .ok { quote := toString q.amount_out,
                path := buildSwapPath env.factory_address token_path }
        else if lower firstPool.lp != lower body.pair_address then
          .ok { quote := toString q.amount_out,
                path := buildSwapPath env.factory_address token_path }
        else sellBranch body env q token_path (buildSwapPath env.factory_address token_path)

/-- `src/app.py` line 43: the cache identifier of a request. -/
def swap_id (body : SwapAerodromeBody) : String :=
  body.chain_id ++ "-" ++ body.token_in ++ "-" ++ body.token_out

/-- `src/redis_utils.py` lines 23 and 34: the redis key derived from it. -/
def cache_key (body : SwapAerodromeBody) : String := "swap:" ++ swap_id body

/-- `src/app.py` lines 45-55: serve from cache when `use_cache` is set and a
cached entry exists under the request's key, otherwise compute the quote. -/
def swap_aerodrome (body : SwapAerodromeBody) (cache : String → Option QuoteResult)
    (env : ChainEnv) : Except QuoteError QuoteResult :=
  if body.use_cache then
    match cache (cache_key body) with
    | some cached => .ok cached
    | none => get_aerodrome_quote body env
  else get_aerodrome_quote body env

/-- `src/app.py` line 54 / `src/redis_utils.py` `cache_swap_data`: on success
the computed quote is stored under the request's key. -/
def cacheAfter (body : SwapAerodromeBody) (cache : String → Option QuoteResult)
    (env : ChainEnv) : String → Option QuoteResult :=
  match swap_aerodrome body cache env with
  | .ok res => fun k => if k == cache_key body then some res else cache k
  | .error _ => cache

/-! ## Arithmetic bridging -/

theorem tdiv_ofNat (m n : Nat) : Int.tdiv (m : Int) (n : Int) = ((m / n : Nat) : Int) := rfl

theorem fdiv_ofNat (m n : Nat) : Int.fdiv (m : Int) (n : Int) = ((m / n : Nat) : Int) :=
  (Int.ofNat_fdiv m n).symm

theorem mul_div_le_self_of_le (x y c : Nat) (h : y ≤ c) (hc : 0 < c) : x * y / c ≤ x :=
  calc x * y / c ≤ x * c / c := Nat.div_le_div_right (Nat.mul_le_mul_left x h)
    _ = x := Nat.mul_div_cancel x hc

/-- Spec formula: `fee = floor(amount_in * total_fee_percent / 1000)`. -/
def spec_fee (amount_in tfp : Nat) : Nat := amount_in * tfp / 1000

/-- Spec formula: `remaining = amount_in - fee` then
`remaining -= floor(remaining * fee_bps / 10000)`. -/
def spec_remaining (amount_in tfp fee_bps : Nat) : Nat :=
  (amount_in - spec_fee amount_in tfp)
    - (amount_in - spec_fee amount_in tfp) * fee_bps / 10000

/-- Spec formula:
`real_base_amount = floor(remaining * base_reserve / (token_reserve + remaining))`. -/
def spec_real_base_amount (amount_in tfp fee_bps base_reserve token_reserve : Nat) : Nat :=
  spec_remaining amount_in tfp fee_bps * base_reserve
    / (token_reserve + spec_remaining amount_in tfp fee_bps)

theorem correction_nat_form (a t b r0 r1 : Nat) (token0 ak : String)
    (h1 : t ≤ 1000) (h2 : b ≤ 10000) :
    correction a (t : Int) b r0 r1 token0 ak =
      { fee := (spec_fee a t : Nat),
        base_reserve := ((if lower token0 == lower ak then r1 else r0 : Nat) : Int),
        token_reserve := ((if lower token0 == lower ak then r0 else r1 : Nat) : Int),
        remaining := (spec_remaining a t b : Nat),
        real_base_amount := (spec_real_base_amount a t b
          (if lower token0 == lower ak then r1 else r0)
          (if lower token0 == lower ak then r0 else r1) : Nat) } := by
  have hfle : spec_fee a t ≤ a := mul_div_le_self_of_le a t 1000 h1 (by norm_num)
  have hfee : Int.tdiv ((a : Int) * (t : Int)) 1000 = ((spec_fee a t : Nat) : Int) := by
    rw [show ((a : Int) * (t : Int)) = ((a * t : Nat) : Int) by push_cast; ring]
    exact tdiv_ofNat (a * t) 1000
  have hr0 : (a : Int) - ((spec_fee a t : Nat) : Int) = ((a - spec_fee a t : Nat) : Int) := by
    omega
  have hfd : Int.fdiv (((a - spec_fee a t : Nat) : Int) * (b : Int)) 10000
      = (((a - spec_fee a t) * b / 10000 : Nat) : Int) := by
    rw [show (((a - spec_fee a t : Nat) : Int) * (b : Int))
      = (((a - spec_fee a t) * b : Nat) : Int) by push_cast; ring]
    exact fdiv_ofNat _ 10000
  have hdle : (a - spec_fee a t) * b / 10000 ≤ a - spec_fee a t :=
    mul_div_le_self_of_le _ b 10000 h2 (by norm_num)
  have hrem : ((a - spec_fee a t : Nat) : Int) - (((a - spec_fee a t) * b / 10000 : Nat) : Int)
      = ((spec_remaining a t b : Nat) : Int) := by
    unfold spec_remaining
    omega
  cases hb : (lower token0 == lower ak) with
  | true =>
    have hreal : Int.tdiv (((spec_remaining a t b : Nat) : Int) * (r1 : Int))
        ((r0 : Int) + ((spec_remaining a t b : Nat) : Int))
        = ((spec_remaining a t b * r1 / (r0 + spec_remaining a t b) : Nat) : Int) := by
      rw [show (((spec_remaining a t b : Nat) : Int) * (r1 : Int))
        = ((spec_remaining a t b * r1 : Nat) : Int) by push_cast; ring]
      rw [show ((r0 : Int) + ((spec_remaining a t b : Nat) : Int))
        = ((r0 + spec_remaining a t b : Nat) : Int) by push_cast; ring]
      exact tdiv_ofNat _ _
    simp only [correction, hb, if_true, hfee, hr0, hfd, hrem, hreal,
      spec_real_base_amount, CorrectionOut.mk.injEq]
  | false =>
    have hreal : Int.tdiv (((spec_remaining a t b : Nat) : Int) * (r0 : Int))
        ((r1 : Int) + ((spec_remaining a t b : Nat) : Int))
        = ((spec_remaining a t b * r0 / (r1 + spec_remaining a t b) : Nat) : Int) := by
      rw [show (((spec_remaining a t b : Nat) : Int) * (r0 : Int))
        = ((spec_remaining a t b * r0 : Nat) : Int) by push_cast; ring]
      rw [show ((r1 : Int) + ((spec_remaining a t b : Nat) : Int))
        = ((r1 + spec_remaining a t b : Nat) : Int) by push_cast; ring]
      exact tdiv_ofNat _ _
    simp only [correction, hb, if_false, hfee, hr0, hfd, hrem, hreal,
      spec_real_base_amount, CorrectionOut.mk.injEq, Bool.false_eq_true]

/-- Claim C1: for a sell of the tax-bearing token through the designated
taxed pool, the correction computes exactly
`fee = floor(amount_in * total_fee_percent / 1000)`,
then `remaining = amount_in - fee` followed by
`remaining -= floor(remaining * fee_bps / 10000)` (in this order), and
`real_base_amount = floor(remaining * base_reserve / (token_reserve + remaining))`,
with `base_reserve` and `token_reserve` selected by comparing the pool's
`token0` to the taxed-token address; every quantity has floor semantics. -/
theorem correction_arithmetic_exact (a t b r0 r1 : Nat) (token0 ak : String)
    (h1 : t ≤ 1000) (h2 : b ≤ 10000) :
    (correction a (t : Int) b r0 r1 token0 ak).fee = ((spec_fee a t : Nat) : Int) ∧
    (correction a (t : Int) b r0 r1 token0 ak).remaining
      = ((spec_remaining a t b : Nat) : Int) ∧
    (correction a (t : Int) b r0 r1 token0 ak).base_reserve
      = ((if lower token0 == lower ak then r1 else r0 : Nat) : Int) ∧
    (correction a (t : Int) b r0 r1 token0 ak).token_reserve
      = ((if lower token0 == lower ak then r0 else r1 : Nat) : Int) ∧
    (correction a (t : Int) b r0 r1 token0 ak).real_base_amount
      = ((spec_real_base_amount a t b (if lower token0 == lower ak then r1 else r0)
          (if lower token0 == lower ak then r0 else r1) : Nat) : Int) := by
  rw [correction_nat_form a t b r0 r1 token0 ak h1 h2]
  exact ⟨rfl, rfl, rfl, rfl, rfl⟩

/-- Witness for `correction_arithmetic_exact` at the spec's example scenario:
`amount_in = 1_000_000`, `total_fee_percent = 30`, `fee_bps = 30`,
`token_reserve = 50_000_000` (token0 is the taxed token), `base_reserve =
20_000_000`; it yields `fee = 30_000`, `remaining = 967_090` and
`real_base_amount = floor(967_090 * 20_000_000 / (50_000_000 + 967_090)) = 379_495`. -/
theorem correction_arithmetic_exact_witness :
    ((30 : Nat) ≤ 1000 ∧ (30 : Nat) ≤ 10000) ∧
    ((correction 1000000 ((30 : Nat) : Int) 30 50000000 20000000 "0xak" "0xak").fee
        = ((spec_fee 1000000 30 : Nat) : Int) ∧
      (correction 1000000 ((30 : Nat) : Int) 30 50000000 20000000 "0xak" "0xak").remaining
        = ((spec_remaining 1000000 30 30 : Nat) : Int) ∧
      (correction 1000000 ((30 : Nat) : Int) 30 50000000 20000000 "0xak" "0xak").base_reserve
        = ((if lower "0xak" == lower "0xak" then 20000000 else 50000000 : Nat) : Int) ∧
      (correction 1000000 ((30 : Nat) : Int) 30 50000000 20000000 "0xak" "0xak").token_reserve
        = ((if lower "0xak" == lower "0xak" then 50000000 else 20000000 : Nat) : Int) ∧
      (correction 1000000 ((30 : Nat) : Int) 30 50000000 20000000 "0xak" "0xak").real_base_amount
        = ((spec_real_base_amount 1000000 30 30
            (if lower "0xak" == lower "0xak" then 20000000 else 50000000)
            (if lower "0xak" == lower "0xak" then 50000000 else 20000000) : Nat) : Int)) ∧
    (spec_fee 1000000 30 = 30000 ∧ spec_remaining 1000000 30 30 = 967090 ∧
      spec_real_base_amount 1000000 30 30 20000000 50000000
        = 967090 * 20000000 / (50000000 + 967090) ∧
      967090 * 20000000 / (50000000 + 967090) = 379495) :=
  ⟨⟨by norm_num, by norm_num⟩,
    correction_arithmetic_exact 1000000 30 30 50000000 20000000 "0xak" "0xak"
      (by norm_num) (by norm_num),
    by decide⟩

/-- A concrete request whose `total_fee_percent` is 2000 (200%): pydantic
accepts it because the model's only value constraint is `ge=0`. -/
def body2000 : SwapAerodromeBody :=
  { use_cache := false, chain_id := "8453", token_in := "0xak", token_out := "0xbase",
    token_in_amount := 1000, pair_address := "0xpool1", agent_key_address := "0xak",
    total_fee_percent := 2000 }

/-- Claim C6 is false as stated: `total_fee_percent = 2000` passes request
validation (which only demands `total_fee_percent ≥ 0`), yet for
`amount_in = 1000` the withheld fee is `2000 > amount_in` and the remaining
amount after the two fee deductions is negative (`-997`). -/
theorem fee_validation_counterexample :
    validateBody body2000 = true ∧
    body2000.total_fee_percent = 2000 ∧
    (correction 1000 body2000.total_fee_percent 30 50000000 20000000 "0xak" "0xak").fee
      = 2000 ∧
    ¬ ((correction 1000 body2000.total_fee_percent 30 50000000 20000000 "0xak" "0xak").fee
      ≤ 1000) ∧
    (correction 1000 body2000.total_fee_percent 30 50000000 20000000 "0xak" "0xak").remaining
      < 0 := by
  decide

/-- Claim C6 amended: request validation only rejects a negative
`total_fee_percent` (so a rate above 100% is accepted, see
`fee_validation_counterexample`); whenever the accepted rate is moreover at
most 1000 and the pool fee is at most 10000 bps, the withheld fee satisfies
`0 ≤ fee ≤ amount_in` and the remaining amount is never negative. -/
theorem fee_bounds_amended (a t b r0 r1 : Nat) (token0 ak : String)
    (body : SwapAerodromeBody) (hv : body.total_fee_percent = (t : Int))
    (h1 : t ≤ 1000) (h2 : b ≤ 10000) :
    validateBody body = true ∧
    0 ≤ (correction a body.total_fee_percent b r0 r1 token0 ak).fee ∧
    (correction a body.total_fee_percent b r0 r1 token0 ak).fee ≤ (a : Int) ∧
    0 ≤ (correction a body.total_fee_percent b r0 r1 token0 ak).remaining := by
  rw [hv]
  refine ⟨?_, ?_, ?_, ?_⟩
  · simp [validateBody, hv]
  · rw [(correction_nat_form a t b r0 r1 token0 ak h1 h2)]
    exact Int.ofNat_nonneg _
  · rw [(correction_nat_form a t b r0 r1 token0 ak h1 h2)]
    show ((spec_fee a t : Nat) : Int) ≤ (a : Int)
    exact_mod_cast mul_div_le_self_of_le a t 1000 h1 (by norm_num)
  · rw [(correction_nat_form a t b r0 r1 token0 ak h1 h2)]
    exact Int.ofNat_nonneg _

/-- Witness for `fee_bounds_amended` at the example scenario's inputs. -/
theorem fee_bounds_amended_witness :
    ({ body2000 with total_fee_percent := 30 }.total_fee_percent = ((30 : Nat) : Int)
      ∧ (30 : Nat) ≤ 1000 ∧ (30 : Nat) ≤ 10000) ∧
    (validateBody { body2000 with total_fee_percent := 30 } = true ∧
      0 ≤ (correction 1000000 { body2000 with total_fee_percent := 30 }.total_fee_percent
        30 50000000 20000000 "0xak" "0xak").fee ∧
      (correction 1000000 { body2000 with total_fee_percent := 30 }.total_fee_percent
        30 50000000 20000000 "0xak" "0xak").fee ≤ ((1000000 : Nat) : Int) ∧
      0 ≤ (correction 1000000 { body2000 with total_fee_percent := 30 }.total_fee_percent
        30 50000000 20000000 "0xak" "0xak").remaining) :=
  ⟨⟨by norm_num, by norm_num, by norm_num⟩,
    fee_bounds_amended 1000000 30 30 50000000 20000000 "0xak" "0xak"
      { body2000 with total_fee_percent := 30 } (by norm_num) (by norm_num) (by norm_num)⟩

/-! ## Structural facts about path canonicalization -/

/-- A successful token path has one more entry than the route has pools. -/
theorem buildTokenPath_ok_length (l : List Pool) :
    ∀ tail p, buildTokenPath tail l = .ok p → p.length = l.length + 1 := by
  induction l with
  | nil =>
    intro tail p h
    simp only [buildTokenPath] at h
    cases h
    rfl
  | cons pool rest ih =>
    intro tail p h
    simp only [buildTokenPath] at h
    by_cases h0 : (tail == lower pool.token0_address) = true
    · rw [if_pos h0] at h
      cases hr : buildTokenPath (lower pool.token1_address) rest with
      | ok p1 =>
        rw [hr] at h
        cases h
        simp [ih _ _ hr]
      | error e => rw [hr] at h; cases h
    · rw [if_neg h0] at h
      by_cases h1 : (tail == lower pool.token1_address) = true
      · rw [if_pos h1] at h
        cases hr : buildTokenPath (lower pool.token0_address) rest with
        | ok p1 =>
          rw [hr] at h
          cases h
          simp [ih _ _ hr]
        | error e => rw [hr] at h; cases h
      · rw [if_neg h1] at h
        cases h

/-- A successful token path starts with the starting token. -/
theorem buildTokenPath_ok_head (l : List Pool) :
    ∀ tail p, buildTokenPath tail l = .ok p → ∃ p1, p = tail :: p1 := by
  intro tail p h
  cases l with
  | nil =>
    simp only [buildTokenPath] at h
    cases h
    exact ⟨[], rfl⟩
  | cons pool rest =>
    simp only [buildTokenPath] at h
    by_cases h0 : (tail == lower pool.token0_address) = true
    · rw [if_pos h0] at h
      cases hr : buildTokenPath (lower pool.token1_address) rest with
      | ok p1 => rw [hr] at h; cases h; exact ⟨p1, rfl⟩
      | error e => rw [hr] at h; cases h
    · rw [if_neg h0] at h
      by_cases h1 : (tail == lower pool.token1_address) = true
      · rw [if_pos h1] at h
        cases hr : buildTokenPath (lower pool.token0_address) rest with
        | ok p1 => rw [hr] at h; cases h; exact ⟨p1, rfl⟩
        | error e => rw [hr] at h; cases h
      · rw [if_neg h1] at h
        cases h

/-- A path-inconsistency failure always names a pool of the route both of
whose tokens differ from the running tail recorded in the error. -/
theorem buildTokenPath_error_mem (l : List Pool) :
    ∀ tail t lp, buildTokenPath tail l = .error (.pathInconsistent t lp) →
      ∃ pool ∈ l, pool.lp = lp ∧ t ≠ lower pool.token0_address
        ∧ t ≠ lower pool.token1_address := by
  induction l with
  | nil =>
    intro tail t lp h
    simp only [buildTokenPath] at h
    cases h
  | cons pool rest ih =>
    intro tail t lp h
    simp only [buildTokenPath] at h
    by_cases h0 : (tail == lower pool.token0_address) = true
    · rw [if_pos h0] at h
      cases hr : buildTokenPath (lower pool.token1_address) rest with
      | ok p1 => rw [hr] at h; cases h
      | error e =>
        rw [hr] at h
        cases h
        obtain ⟨q, hq, hrest⟩ := ih _ _ _ hr
        exact ⟨q, List.mem_cons_of_mem _ hq, hrest⟩
    · rw [if_neg h0] at h
      by_cases h1 : (tail == lower pool.token1_address) = true
      · rw [if_pos h1] at h
        cases hr : buildTokenPath (lower pool.token0_address) rest with
        | ok p1 => rw [hr] at h; cases h
        | error e =>
          rw [hr] at h
          cases h
          obtain ⟨q, hq, hrest⟩ := ih _ _ _ hr
          exact ⟨q, List.mem_cons_of_mem _ hq, hrest⟩
      · rw [if_neg h1] at h
        cases h
        exact ⟨pool, List.mem_cons_self pool rest, rfl,
          fun he => h0 (beq_iff_eq.mpr he), fun he => h1 (beq_iff_eq.mpr he)⟩

/-- The hop list has one hop per consecutive pair of token-path entries. -/
theorem buildSwapPath_length (f : String) : ∀ l : List String,
    (buildSwapPath f l).length = l.length - 1 := by
  intro l
  induction l with
  | nil => rfl
  | cons a l ih =>
    cases l with
    | nil => rfl
    | cons b rest =>
      simp only [buildSwapPath, List.length_cons] at ih ⊢
      omega

/-- Every emitted hop is volatile and carries the configured factory. -/
theorem buildSwapPath_mem (f : String) : ∀ (l : List String) (hop : RouteHop),
    hop ∈ buildSwapPath f l → hop.stable = false ∧ hop.factory = f := by
  intro l
  induction l with
  | nil => intro hop h; cases h
  | cons a l ih =>
    intro hop h
    cases l with
    | nil => cases h
    | cons b rest =>
      simp only [buildSwapPath, List.mem_cons] at h
      cases h with
      | inl he => rw [he]; exact ⟨rfl, rfl⟩
      | inr hm => exact ih hop hm

/-- Consecutive hops share a token. -/
theorem buildSwapPath_chain (f : String) : ∀ l : List String,
    List.Chain' (fun h1 h2 => h1.to_token = h2.from_token) (buildSwapPath f l) := by
  intro l
  induction l with
  | nil => exact List.chain'_nil
  | cons a l ih =>
    cases l with
    | nil => exact List.chain'_nil
    | cons b rest =>
      refine List.chain'_cons'.mpr ⟨?_, ih⟩
      intro y hy
      cases rest with
      | nil => cases hy
      | cons c rest2 =>
        simp only [buildSwapPath, List.head?_cons, Option.mem_def, Option.some.injEq] at hy
        rw [← hy]

/-- Inversion: any successful run found a route, canonicalized its token
path, and returned the derived hop list as the result's path. -/
theorem get_quote_ok_shape (body : SwapAerodromeBody) (env : ChainEnv) (res : QuoteResult)
    (h : get_aerodrome_quote body env = .ok res) :
    ∃ q firstPool rest token_path,
      env.quote = some q ∧ q.path = firstPool :: rest ∧
      buildTokenPath (startOf body env) q.path = .ok token_path ∧
      res.path = buildSwapPath env.factory_address token_path := by
  unfold get_aerodrome_quote at h
  split at h
  · exact Except.noConfusion h
  next q hq =>
    split at h
    · exact Except.noConfusion h
    next firstPool rest hpath =>
      split at h
      · exact Except.noConfusion h
      next token_path hbt =>
        refine ⟨q, firstPool, rest, token_path, hq, hpath, ?_, ?_⟩
        · rw [hpath]; exact hbt
        · split at h
          · rw [← Except.ok.inj h]
          · split at h
            · rw [← Except.ok.inj h]
            · unfold sellBranch at h
              split at h
              · split at h
                · exact Except.noConfusion h
                · split at h
                  · split at h
                    · rw [← Except.ok.inj h]
                    · exact Except.noConfusion h
                  · rw [← Except.ok.inj h]
              · exact Except.noConfusion h

/-- Claim C4: when the (resolved) input token is not the tax-bearing token,
compared case-insensitively, the function returns the route finder's naive
`amount_out` as a decimal string together with the canonical hop path,
whatever the value of `total_fee_percent`. -/
theorem buy_returns_naive_quote (body : SwapAerodromeBody) (env : ChainEnv)
    (q : Quote) (firstPool : Pool) (rest : List Pool) (token_path : List String)
    (hq : env.quote = some q) (hp : q.path = firstPool :: rest)
    (hb : buildTokenPath (startOf body env) q.path = .ok token_path)
    (hbuy : lower (resolveTokenIn body env).token_address
      ≠ lower body.agent_key_address) :
    ∀ t : Int, get_aerodrome_quote { body with total_fee_percent := t } env =
      .ok { quote := toString q.amount_out,
            path := buildSwapPath env.factory_address token_path } := by
  intro t
  rw [hp] at hb
  have hc : (lower (resolveTokenIn body env).token_address
      == lower body.agent_key_address) = false := beq_eq_false_iff_ne.mpr hbuy
  have hres : resolveTokenIn { body with total_fee_percent := t } env
      = resolveTokenIn body env := rfl
  have hstart : startOf { body with total_fee_percent := t } env = startOf body env := rfl
  have hak : ({ body with total_fee_percent := t } : SwapAerodromeBody).agent_key_address
      = body.agent_key_address := rfl
  unfold get_aerodrome_quote
  simp only [hq, hp, hstart, hres, hak, hb, hc, Bool.not_false, if_true]

/-- Claim C5: when the first pool of the discovered route is not the
designated taxed pool (case-insensitive address comparison), the function
returns the naive `amount_out` and the canonical hop path unchanged. -/
theorem other_pool_returns_naive_quote (body : SwapAerodromeBody) (env : ChainEnv)
    (q : Quote) (firstPool : Pool) (rest : List Pool) (token_path : List String)
    (hq : env.quote = some q) (hp : q.path = firstPool :: rest)
    (hb : buildTokenPath (startOf body env) q.path = .ok token_path)
    (hlp : lower firstPool.lp ≠ lower body.pair_address) :
    get_aerodrome_quote body env =
      .ok { quote := toString q.amount_out,
            path := buildSwapPath env.factory_address token_path } := by
  rw [hp] at hb
  have hc : (lower firstPool.lp != lower body.pair_address) = true := bne_iff_ne.mpr hlp
  unfold get_aerodrome_quote
  simp only [hq, hp, hb, hc, if_true]
  cases hsell : (lower (resolveTokenIn body env).token_address
      == lower body.agent_key_address) with
  | true => simp
  | false => simp

/-- Claim C3: for a sell through the taxed pool whose canonical token path
has more than two tokens, the returned quote is the final element of the
router's batch output call on the remaining hops (all hops after the first)
fed with `real_base_amount` — not the naive first-hop output. -/
theorem multi_hop_forwards_real_base_amount (body : SwapAerodromeBody) (env : ChainEnv)
    (q : Quote) (firstPool : Pool) (rest : List Pool) (token_path : List String)
    (fi fo x y : Int)
    (hq : env.quote = some q) (hp : q.path = firstPool :: rest)
    (hb : buildTokenPath (startOf body env) q.path = .ok token_path)
    (hsell : lower (resolveTokenIn body env).token_address
      = lower body.agent_key_address)
    (hlp : lower firstPool.lp = lower body.pair_address)
    (hfee : env.fee_amounts = [fi, fo])
    (hden : (sellCorrectionOf body env q).token_reserve
      + (sellCorrectionOf body env q).remaining ≠ 0)
    (hlen : token_path.length > 2)
    (hfw : env.forward_amounts (sellCorrectionOf body env q).real_base_amount
        ((buildSwapPath env.factory_address token_path).drop 1) = [x, y]) :
    get_aerodrome_quote body env =
      .ok { quote := toString y,
            path := buildSwapPath env.factory_address token_path } := by
  rw [hp] at hb
  have hc1 : (lower (resolveTokenIn body env).token_address
      == lower body.agent_key_address) = true := beq_iff_eq.mpr hsell
  have hc2 : (lower firstPool.lp != lower body.pair_address) = false := by
    simp [bne_iff_ne, hlp]
  have hc3 : ((sellCorrectionOf body env q).token_reserve
      + (sellCorrectionOf body env q).remaining == 0) = false :=
    beq_eq_false_iff_ne.mpr hden
  unfold get_aerodrome_quote
  simp only [hq, hp, hb, hc1, Bool.not_true, if_false, hc2]
  unfold sellBranch
  simp only [hfee, hc3, if_false, if_pos hlen, hfw]
  simp

/-- Claim C7: a route containing a pool neither of whose tokens matches the
running path tail makes the whole call fail with a path-inconsistency error
naming that pool; no quote and no partial path is returned. -/
theorem path_inconsistent_fails (body : SwapAerodromeBody) (env : ChainEnv)
    (q : Quote) (firstPool : Pool) (rest : List Pool) (t lp : String)
    (hq : env.quote = some q) (hp : q.path = firstPool :: rest)
    (hb : buildTokenPath (startOf body env) q.path
      = .error (.pathInconsistent t lp)) :
    get_aerodrome_quote body env = .error (.pathInconsistent t lp) ∧
    ∃ pool ∈ q.path, pool.lp = lp ∧ t ≠ lower pool.token0_address
      ∧ t ≠ lower pool.token1_address := by
  constructor
  · rw [hp] at hb
    unfold get_aerodrome_quote
    simp only [hq, hp, hb]
  · exact buildTokenPath_error_mem q.path _ _ _ hb

/-- Claim C8: the path of every successful quote is a contiguous hop
sequence: one hop per pool of the route, every hop volatile and carrying the
configured factory address, consecutive hops sharing a token, and the first
hop starting at the wrapped form of the input token. -/
theorem swap_path_wellformed (body : SwapAerodromeBody) (env : ChainEnv)
    (res : QuoteResult) (q : Quote) (hq : env.quote = some q)
    (h : get_aerodrome_quote body env = .ok res) :
    res.path.length = q.path.length ∧
    (∀ hop ∈ res.path, hop.stable = false ∧ hop.factory = env.factory_address) ∧
    List.Chain' (fun h1 h2 => h1.to_token = h2.from_token) res.path ∧
    res.path.head?.map RouteHop.from_token = some (startOf body env) := by
  obtain ⟨q1, fp, rest, tp, hq1, hp, hbt, hres⟩ := get_quote_ok_shape body env res h
  rw [hq] at hq1
  obtain rfl : q = q1 := Option.some.inj hq1
  have hlen : tp.length = q.path.length + 1 := buildTokenPath_ok_length q.path _ _ hbt
  obtain ⟨p1, htp⟩ := buildTokenPath_ok_head q.path _ _ hbt
  refine ⟨?_, ?_, ?_, ?_⟩
  · rw [hres, buildSwapPath_length]
    omega
  · intro hop hm
    rw [hres] at hm
    exact buildSwapPath_mem _ _ _ hm
  · rw [hres]
    exact buildSwapPath_chain _ _
  · cases hp1 : p1 with
    | nil =>
      rw [hp1] at htp
      rw [htp] at hlen
      rw [hp] at hlen
      simp at hlen
    | cons b p2 =>
      rw [hp1] at htp
      rw [hres, htp]
      rfl

/-- Claim C9: the values returned by the router's batch call on the withheld
fee portion never influence the result: two runs identical except for those
two values return the same quote and path. -/
theorem fee_call_noninterference (body : SwapAerodromeBody) (env : ChainEnv)
    (a b c d : Int) :
    get_aerodrome_quote body { env with fee_amounts := [a, b] } =
      get_aerodrome_quote body { env with fee_amounts := [c, d] } := by
  cases env
  rfl

/-! ## Concrete example requests and environments -/

/-- The taxed pair: the agent-key token is its token0. -/
def exPoolAK : Pool :=
  { lp := "0xPOOL1", token0_address := "0xAK", token1_address := "0xBASE" }

/-- A second pool for two-hop routes. -/
def exPoolBC : Pool :=
  { lp := "0xPOOL2", token0_address := "0xC", token1_address := "0xBASE" }

/-- A pool unrelated to the running path (for inconsistency scenarios). -/
def exPoolXY : Pool :=
  { lp := "0xPOOLBAD", token0_address := "0xX", token1_address := "0xY" }

/-- A sell of the agent-key token through the taxed pool. -/
def exBodySell : SwapAerodromeBody :=
  { use_cache := false, chain_id := "8453", token_in := "0xAK", token_out := "0xBASE",
    token_in_amount := 1000000, pair_address := "0xpool1", agent_key_address := "0xak",
    total_fee_percent := 30 }

/-- Single-hop sell environment: naive route-finder output 42, reserves
50_000_000 (taxed token) / 20_000_000 (base). -/
def exEnvSingle : ChainEnv :=
  { eth_token := { token_address := "0xETH", wrapped_token_address := some "0xWETH" },
    factory_address := "0xFACT",
    quote := some { path := [exPoolAK], amount_in := 1000000, amount_out := 42 },
    fee_bps := 30, reserve0 := 50000000, reserve1 := 20000000, token0 := "0xAK",
    fee_amounts := [0, 0], forward_amounts := fun _ _ => [] }

/-- The same single-hop sell with zero transfer tax and zero pool fee. -/
def exBodyC2 : SwapAerodromeBody := { exBodySell with total_fee_percent := 0 }

def exEnvC2 : ChainEnv := { exEnvSingle with fee_bps := 0 }

def exQuoteC2 : Quote := { path := [exPoolAK], amount_in := 1000000, amount_out := 42 }

/-- Claim C2 fails on the code: for a single-hop sell through the taxed pool —
here with `total_fee_percent = 0` and pool `fee_bps = 0` — the function
returns the route finder's naive `amount_out` (42), not `real_base_amount`
(`floor(1_000_000 * 20_000_000 / 51_000_000) = 392_156`, the constant-product
output of the unmodified input), and the difference exceeds the claim's
rounding tolerance of 1 unit.  Lines 159-161 of `src/aerodrome.py` only use
`real_base_amount` when the token path has more than two entries. -/
theorem single_hop_sell_returns_naive_quote :
    get_aerodrome_quote exBodyC2 exEnvC2 =
      .ok { quote := "42",
            path := [{ from_token := "0xak", to_token := "0xbase",
                       stable := false, factory := "0xFACT" }] } ∧
    exEnvC2.quote = some exQuoteC2 ∧
    (sellCorrectionOf exBodyC2 exEnvC2 exQuoteC2).real_base_amount = 392156 ∧
    (392156 : Int) - 42 > 1 :=
  ⟨by rfl, by rfl, by rfl, by norm_num⟩

/-- Witness for `buy_returns_naive_quote`: buying the agent-key token (input
is the base token) passes the naive output `123456` through, with
`total_fee_percent` set to 999. -/
def exBodyBuy : SwapAerodromeBody := { exBodySell with token_in := "0xBASE" }

def exEnvBuy : ChainEnv :=
  { exEnvSingle with
    quote := some { path := [exPoolAK], amount_in := 1000000, amount_out := 123456 } }

def exQuoteBuy : Quote := { path := [exPoolAK], amount_in := 1000000, amount_out := 123456 }

theorem buy_returns_naive_quote_witness :
    (exEnvBuy.quote = some exQuoteBuy ∧
      exQuoteBuy.path = [exPoolAK] ∧
      buildTokenPath (startOf exBodyBuy exEnvBuy) exQuoteBuy.path
        = .ok ["0xbase", "0xak"] ∧
      lower (resolveTokenIn exBodyBuy exEnvBuy).token_address
        ≠ lower exBodyBuy.agent_key_address) ∧
    get_aerodrome_quote { exBodyBuy with total_fee_percent := 999 } exEnvBuy =
      .ok { quote := toString exQuoteBuy.amount_out,
            path := buildSwapPath exEnvBuy.factory_address ["0xbase", "0xak"] } :=
  ⟨⟨rfl, rfl, rfl, by decide⟩,
    buy_returns_naive_quote exBodyBuy exEnvBuy exQuoteBuy exPoolAK [] ["0xbase", "0xak"]
      rfl rfl rfl (by decide) 999⟩

/-- Witness for `other_pool_returns_naive_quote`: the same sell but with a
`pair_address` that is not the route's first pool. -/
def exBodyOtherPool : SwapAerodromeBody := { exBodySell with pair_address := "0xother" }

def exQuoteSingle : Quote := { path := [exPoolAK], amount_in := 1000000, amount_out := 42 }

theorem other_pool_returns_naive_quote_witness :
    (exEnvSingle.quote = some exQuoteSingle ∧
      exQuoteSingle.path = [exPoolAK] ∧
      buildTokenPath (startOf exBodyOtherPool exEnvSingle) exQuoteSingle.path
        = .ok ["0xak", "0xbase"] ∧
      lower exPoolAK.lp ≠ lower exBodyOtherPool.pair_address) ∧
    get_aerodrome_quote exBodyOtherPool exEnvSingle =
      .ok { quote := toString exQuoteSingle.amount_out,
            path := buildSwapPath exEnvSingle.factory_address ["0xak", "0xbase"] } :=
  ⟨⟨rfl, rfl, rfl, by decide⟩,
    other_pool_returns_naive_quote exBodyOtherPool exEnvSingle exQuoteSingle exPoolAK []
      ["0xak", "0xbase"] rfl rfl rfl (by decide)⟩

/-- Two-hop sell environment: the forwarding router call answers `[_, 777]`. -/
def exEnvMulti : ChainEnv :=
  { exEnvSingle with
    quote := some { path := [exPoolAK, exPoolBC], amount_in := 1000000, amount_out := 42 },
    forward_amounts := fun _ _ => [379495, 777] }

def exQuoteMulti : Quote :=
  { path := [exPoolAK, exPoolBC], amount_in := 1000000, amount_out := 42 }

theorem multi_hop_forwards_real_base_amount_witness :
    (exEnvMulti.quote = some exQuoteMulti ∧
      exQuoteMulti.path = [exPoolAK, exPoolBC] ∧
      buildTokenPath (startOf exBodySell exEnvMulti) exQuoteMulti.path
        = .ok ["0xak", "0xbase", "0xc"] ∧
      lower (resolveTokenIn exBodySell exEnvMulti).token_address
        = lower exBodySell.agent_key_address ∧
      lower exPoolAK.lp = lower exBodySell.pair_address ∧
      exEnvMulti.fee_amounts = [0, 0] ∧
      (sellCorrectionOf exBodySell exEnvMulti exQuoteMulti).token_reserve
        + (sellCorrectionOf exBodySell exEnvMulti exQuoteMulti).remaining ≠ 0 ∧
      (["0xak", "0xbase", "0xc"] : List String).length > 2 ∧
      exEnvMulti.forward_amounts
        (sellCorrectionOf exBodySell exEnvMulti exQuoteMulti).real_base_amount
        ((buildSwapPath exEnvMulti.factory_address ["0xak", "0xbase", "0xc"]).drop 1)
        = [379495, 777]) ∧
    get_aerodrome_quote exBodySell exEnvMulti =
      .ok { quote := toString (777 : Int),
            path := buildSwapPath exEnvMulti.factory_address ["0xak", "0xbase", "0xc"] } :=
  ⟨⟨rfl, rfl, rfl, rfl, rfl, rfl, by decide, by decide, rfl⟩,
    multi_hop_forwards_real_base_amount exBodySell exEnvMulti exQuoteMulti exPoolAK
      [exPoolBC] ["0xak", "0xbase", "0xc"] 0 0 379495 777
      rfl rfl rfl rfl rfl rfl (by decide) (by decide) rfl⟩

/-- Environment whose route contains a pool sharing no token with the
running path tail. -/
def exEnvBad : ChainEnv :=
  { exEnvSingle with
    quote := some { path := [exPoolAK, exPoolXY], amount_in := 5, amount_out := 6 } }

def exQuoteBad : Quote := { path := [exPoolAK, exPoolXY], amount_in := 5, amount_out := 6 }

theorem path_inconsistent_fails_witness :
    (exEnvBad.quote = some exQuoteBad ∧
      exQuoteBad.path = [exPoolAK, exPoolXY] ∧
      buildTokenPath (startOf exBodySell exEnvBad) exQuoteBad.path
        = .error (.pathInconsistent "0xbase" "0xPOOLBAD")) ∧
    (get_aerodrome_quote exBodySell exEnvBad
        = .error (.pathInconsistent "0xbase" "0xPOOLBAD") ∧
      ∃ pool ∈ exQuoteBad.path, pool.lp = "0xPOOLBAD"
        ∧ "0xbase" ≠ lower pool.token0_address
        ∧ "0xbase" ≠ lower pool.token1_address) :=
  ⟨⟨rfl, rfl, rfl⟩,
    path_inconsistent_fails exBodySell exEnvBad exQuoteBad exPoolAK [exPoolXY]
      "0xbase" "0xPOOLBAD" rfl rfl rfl⟩

def exRes42 : QuoteResult :=
  { quote := "42",
    path := [{ from_token := "0xak", to_token := "0xbase",
               stable := false, factory := "0xFACT" }] }

theorem swap_path_wellformed_witness :
    (exEnvSingle.quote = some exQuoteSingle ∧
      get_aerodrome_quote exBodySell exEnvSingle = .ok exRes42) ∧
    (exRes42.path.length = exQuoteSingle.path.length ∧
      (∀ hop ∈ exRes42.path,
        hop.stable = false ∧ hop.factory = exEnvSingle.factory_address) ∧
      List.Chain' (fun h1 h2 => h1.to_token = h2.from_token) exRes42.path ∧
      exRes42.path.head?.map RouteHop.from_token
        = some (startOf exBodySell exEnvSingle)) :=
  ⟨⟨rfl, rfl⟩,
    swap_path_wellformed exBodySell exEnvSingle exRes42 exQuoteSingle rfl rfl⟩

/-- Claim C10: the cache key depends only on `chain_id`, `token_in` and
`token_out`; a second cache-enabled request that differs from a previously
answered one only in other fields (amount, pair address, agent key, fee
rate, environment) is answered with the first request's cached quote. -/
theorem cache_key_ignores_other_fields (b1 b2 : SwapAerodromeBody)
    (cache : String → Option QuoteResult) (env1 env2 : ChainEnv) (res : QuoteResult)
    (hc : b1.chain_id = b2.chain_id) (hi : b1.token_in = b2.token_in)
    (ho : b1.token_out = b2.token_out) (hu : b2.use_cache = true)
    (h1 : swap_aerodrome b1 cache env1 = .ok res) :
    cache_key b1 = cache_key b2 ∧
    swap_aerodrome b2 (cacheAfter b1 cache env1) env2 = .ok res := by
  have hkey : cache_key b1 = cache_key b2 := by
    unfold cache_key swap_id
    rw [hc, hi, ho]
  refine ⟨hkey, ?_⟩
  unfold swap_aerodrome
  rw [hu]
  unfold cacheAfter
  rw [h1, ← hkey]
  simp

/-- Witness for `cache_key_ignores_other_fields`: the first request computes
quote 42; the second differs in amount, pair address, agent key and fee rate
(and runs against a different environment) yet is served the cached 42. -/
def exBody2nd : SwapAerodromeBody :=
  { exBodySell with
    use_cache := true, token_in_amount := 555,
    pair_address := "0xother", agent_key_address := "0xother2",
    total_fee_percent := 999 }

theorem cache_key_ignores_other_fields_witness :
    (exBodySell.chain_id = exBody2nd.chain_id ∧
      exBodySell.token_in = exBody2nd.token_in ∧
      exBodySell.token_out = exBody2nd.token_out ∧
      exBody2nd.use_cache = true ∧
      swap_aerodrome exBodySell (fun _ => none) exEnvSingle = .ok exRes42) ∧
    (cache_key exBodySell = cache_key exBody2nd ∧
      swap_aerodrome exBody2nd (cacheAfter exBodySell (fun _ => none) exEnvSingle) exEnvBuy
        = .ok exRes42) :=
  ⟨⟨rfl, rfl, rfl, rfl, rfl⟩,
    cache_key_ignores_other_fields exBodySell exBody2nd (fun _ => none) exEnvSingle exEnvBuy
      exRes42 rfl rfl rfl rfl rfl⟩
